import Mathlib

set_option maxRecDepth 100000

/-!
Verification of tc.py, a command-line tool that triggers TeamCity builds.

The program is modelled by pure Lean functions:
  * the XML request builder (`dict_as_properties`, `request_xml`,
    `tc_mvn_args`, `start_linux_data`, `start_ha_data`);
  * the transport request construction (`urljoin`, `send_request_req`);
  * the HTTP-response handling inside `send_request` (`handle_response`);
  * the argparse-based command-line surface and the `TC` dispatcher
    (`parseLinux`, `parseHar`, `tc_main`).
Printed lines are modelled by `OutLine`, the final state of the process by
`ProcResult` (stdout lines, exit status, whether the process ended in an
uncaught-exception traceback), and the outbound HTTP traffic by the list of
`HttpRequest` values produced during a run.
-/

/-- A parsed JSON value, the result of a successful `resp.json()` call in
the Python `requests` library (src/tc.py lines 129 and 134). -/
inductive Json where
  | null
  | bool (b : Bool)
  | num (n : Int)
  | str (s : String)
  | arr (elems : List Json)
  | obj (fields : List (String × Json))

/-- One line written by the program. `msg` is an ordinary printed string,
`jsonVal` is the printed form of a parsed JSON value, `pyNone` is the line
printed by `print(None)`, `usageError` is the argparse usage/error text
written to stderr, and `helpText` is a parser help dump. -/
inductive OutLine where
  | msg (s : String)
  | jsonVal (j : Json)
  | pyNone
  | usageError
  | helpText

/-- The observable end state of one run of tc.py: the printed lines, the
process exit status, and whether the run ended in an uncaught Python
exception (which prints a traceback to stderr and exits with status 1). -/
structure ProcResult where
  output : List OutLine
  exitCode : Nat
  crashed : Bool

/-- One outbound HTTP request as issued by `requests.post` at
src/tc.py lines 122-125. -/
structure HttpRequest where
  method : String
  url : String
  authUser : String
  authPass : String
  headers : List (String × String)
  body : String

/-- One HTTP response as seen by `send_request`. `json` is the result of
`resp.json()`: `some j` when the body text parses as JSON, `none` when
`resp.json()` would raise (malformed JSON body). -/
structure HttpResponse where
  status : Nat
  text : String
  json : Option Json

/-- Embeds `_headers` (src/tc.py lines 27-28). -/
def _headers : List (String × String) :=
  [("Accept", "application/json"), ("Content-Type", "application/xml")]

/-- Embeds `_neo4jlinux_id` (src/tc.py line 43). -/
def _neo4jlinux_id : String := "JonasHaRequests_Neo4jCustom"

/-- Embeds `_har_id` (src/tc.py line 44). -/
def _har_id : String := "JonasHaRequests_HarBranchArtifacts"

/-- Embeds `_linux_jdks` (src/tc.py lines 46-48). -/
def _linux_jdks : List String :=
  ["openjdk-8", "openjdk-7", "oracle-jdk-8", "oracle-jdk-7", "ibmjdk-8", "ibmjdk-7"]

/-- Embeds `_requestpropertybase.format(name=k, value=v)` (src/tc.py
line 41): `str.format` substitutes the two fields into the template and
copies the substituted values verbatim. -/
def _requestpropertybase (name value : String) : String :=
  "\n    <property name=\"" ++ name ++ "\" value=\"" ++ value ++ "\"/>"

/-- Embeds `dict_as_properties` (src/tc.py lines 91-101).  The Python
dictionary is modelled as the list of its key/value pairs in insertion
order, which is the iteration order of a CPython 3.7+ dict. -/
def dict_as_properties (props : List (String × String)) : String :=
  props.foldl (fun xml kv => xml ++ _requestpropertybase kv.1 kv.2) ""

/-- Embeds `request_xml` (src/tc.py lines 104-115): the template
`_requestbase` (lines 30-39) with the five fields substituted by
`str.format`, values copied verbatim.  `props = none` models the Python
default `props=None`, which the function replaces by the empty string;
`str(personal).lower()` is `"true"`/`"false"`. -/
def request_xml (buildid : String) (personal : Bool) (branch remote : String)
    (props : Option String) : String :=
  "\n<build personal=\"" ++ (if personal then "true" else "false")
    ++ "\" branchName=\"" ++ branch
    ++ "\">\n  <buildType id=\"" ++ buildid
    ++ "\"/>\n  <comment><text>Triggered from CLI</text></comment>\n  <properties>\n    <property name=\"remote\" value=\""
    ++ remote
    ++ "\"/>\n    <property name=\"branch\" value=\"" ++ branch
    ++ "\"/>" ++ props.getD ""
    ++ "\n  </properties>\n</build>\n"

/-- Embeds `tc_mvn_args` (src/tc.py lines 140-144). -/
def tc_mvn_args (original : String) : String :=
  "-DfailIfNoTests=false -Dmaven.test.failure.ignore=true --show-version " ++ original

/-- Embeds the XML document built by `start_linux` (src/tc.py lines
147-154): `request_xml` applied to the Linux build id and the
three-entry properties dict, whose first value is `"%{}%".format(jdk)`. -/
def start_linux_data (personal : Bool) (branch remote mvngoals mvnargs jdk : String) : String :=
  request_xml _neo4jlinux_id personal branch remote
    (some (dict_as_properties
      [("project-default-jdk", "%" ++ jdk ++ "%"),
       ("maven-goals", mvngoals),
       ("maven-args", mvnargs)]))

/-- Embeds the XML document built by `start_ha` (src/tc.py lines 157-162):
`request_xml` with the HA build id and no `props` argument. -/
def start_ha_data (personal : Bool) (branch remote : String) : String :=
  request_xml _har_id personal branch remote none

/-- Splits a character list at its first colon: `splitColon l = some (a, b)`
when `l = a ++ ':' :: b` with no colon in `a`, and `none` when `l` has no
colon.  Used to model the scheme/rest split performed by
`urlparse.urljoin`. -/
def splitColon : List Char → Option (List Char × List Char)
  | [] => none
  | c :: cs =>
    if c = ':' then some ([], cs)
    else
      match splitColon cs with
      | some p => some (c :: p.1, p.2)
      | none => none

/-- Splits the part of a URL after `scheme://` into the authority (up to
but excluding the first slash) and the path (from the first slash on). -/
def splitNetloc : List Char → List Char × List Char
  | [] => ([], [])
  | c :: cs =>
    if c = '/' then ([], c :: cs)
    else
      let p := splitNetloc cs
      (c :: p.1, p.2)

/-- The part of a path up to and including its last slash; empty when the
path has no slash.  This is the base-path part kept by RFC 3986 merging. -/
def upToLastSlash (path : List Char) : List Char :=
  (path.reverse.dropWhile (fun c => c ≠ '/')).reverse

/-- Embeds `urlparse.urljoin(base, rel)` as called at src/tc.py line 122.
The embedding covers the call's actual domain: an absolute base URL of the
form `scheme://authority[/path]` whose path contains no dot segments,
query, or fragment, joined with the fixed relative path reference
`"httpAuth/app/rest/buildQueue"`.  Per RFC 3986 merging (which the Python
function implements), the reference replaces everything after the last
slash of the base path; a base with an empty path gets `/` prepended to
the reference.  Base URLs outside this shape do not occur in the program
(the `--teamcity` option holds an absolute URL); for them the embedding
returns `rel`. -/
def urljoin (base rel : String) : String :=
  match splitColon base.data with
  | some p =>
    match p.2 with
    | '/' :: '/' :: rest2 =>
      let np := splitNetloc rest2
      let merged := if np.2 = [] then '/' :: rel.data else upToLastSlash np.2 ++ rel.data
      ⟨p.1 ++ ':' :: '/' :: '/' :: (np.1 ++ merged)⟩
    | _ => rel
  | none => rel

/-- Embeds the request constructed by `send_request` (src/tc.py lines
118-125): `requests.post(urljoin(url, "httpAuth/app/rest/buildQueue"),
auth=(user, password), headers=_headers, data=data)`. -/
def send_request_req (user password url data : String) : HttpRequest :=
  { method := "POST"
  , url := urljoin url "httpAuth/app/rest/buildQueue"
  , authUser := user
  , authPass := password
  , headers := _headers
  , body := data }

/-- Embeds `resp.ok` of the `requests` library, used at src/tc.py line
127: it is `False` exactly when `raise_for_status` would raise, i.e. for
status codes in [400, 600). -/
def respOk (status : Nat) : Bool :=
  if 400 ≤ status ∧ status < 600 then false else true

/-- The success message printed at src/tc.py line 128. -/
def successMsg : String := "Build started. View status at"

/-- Embeds the response handling of `send_request` (src/tc.py lines
127-137).  On `resp.ok`: print the success message, then print
`resp.json().get('webUrl')`; a malformed JSON body makes `resp.json()`
raise (uncaught, traceback, exit 1), and a non-object JSON body makes
`.get` raise AttributeError likewise.  Otherwise: print the failure
message and the status code, then the parsed JSON body if the body parses
and the raw text if not (the bare `except` at line 135), and `exit(1)`.
When the success path completes, `send_request` returns and the process
later exits normally with status 0. -/
def handle_response (resp : HttpResponse) : ProcResult :=
  if respOk resp.status then
    match resp.json with
    | some (Json.obj fields) =>
      { output := [.msg successMsg,
          match fields.find? (fun f => f.1 == "webUrl") with
          | some f => .jsonVal f.2
          | none => .pyNone]
      , exitCode := 0, crashed := false }
    | _ => { output := [.msg successMsg], exitCode := 1, crashed := true }
  else
    { output := [.msg "Could not start build:", .msg (toString resp.status)] ++
        (match resp.json with
         | some j => [.jsonVal j]
         | none => [.msg resp.text])
    , exitCode := 1, crashed := false }

/-- True when argparse would treat the token as a negative-number literal
(regex `-\d+` or `-\d*\.\d+`), in which case a parser without
negative-number-like option strings treats it as a positional value. -/
def isNegativeNumberLike (s : String) : Bool :=
  match s.data with
  | '-' :: rest =>
    (match rest.span (fun c => c.isDigit) with
     | (intPart, []) => !intPart.isEmpty
     | (_, '.' :: frac) => !frac.isEmpty && frac.all (fun c => c.isDigit)
     | _ => false)
  | _ => false

/-- True when argparse treats the token as an option string rather than a
positional value: it starts with `-`, is longer than the bare `-`, and
does not look like a negative number (none of tc.py's parsers define
negative-number-like options). -/
def isOptionLike (s : String) : Bool :=
  match s.data with
  | '-' :: _ :: _ => !isNegativeNumberLike s
  | _ => false

/-- The options accepted by the `linux` sub-parser (src/tc.py lines
186-192), after defaults and requiredness are resolved.  Defaults follow
the source: `remote='origin'`, `teamcity='https://build.neohq.net'`,
`personal=False`, `maven-goals='clean verify'`,
`maven-args='-DrunITs -DskipBrowser'`, `jdk=_linux_jdks[0]`. -/
structure LinuxOpts where
  user : Option String := none
  password : Option String := none
  remote : String := "origin"
  teamcity : String := "https://build.neohq.net"
  personal : Bool := false
  personalSeen : Option Bool := none
  mavenGoals : String := "clean verify"
  mavenArgs : String := "-DrunITs -DskipBrowser"
  branch : Option String := none
  jdk : String := "openjdk-8"

/-- The `linux` sub-parser's result once the three required options
(`user`, `password`, `branch`) are known to be present. -/
structure LinuxArgs where
  user : String
  password : String
  remote : String
  teamcity : String
  personal : Bool
  mavenGoals : String
  mavenArgs : String
  branch : String
  jdk : String

/-- The options accepted by the `har` sub-parser (src/tc.py lines
200-207); it inherits the shared parser plus the `-b` (`--branch`) argument
added to the shared required group at line 202. -/
structure HarOpts where
  user : Option String := none
  password : Option String := none
  remote : String := "origin"
  teamcity : String := "https://build.neohq.net"
  personal : Bool := false
  personalSeen : Option Bool := none
  branch : Option String := none

/-- The `har` sub-parser's result once the required options are present. -/
structure HarArgs where
  user : String
  password : String
  remote : String
  teamcity : String
  personal : Bool
  branch : String

/-- Outcome of an argparse `parse_args` call: `err` prints usage to stderr
and exits with status 2, `help` prints help and exits with status 0,
`ok` returns the parsed options. -/
inductive ParseOutcome (α : Type) where
  | err
  | help
  | ok (a : α)

/-- Token-by-token model of the `linux` sub-parser's option scan
(argparse semantics restricted to the forms the program documents:
whole option names followed by a separate value token; abbreviated and
`--opt=value` spellings are not modelled).  A value token that looks like
an option makes argparse report "expected one argument"; an unknown token
is an "unrecognized arguments" error; `--jdk` checks its choices list;
`--personal`/`--no-personal` form a mutually exclusive group. -/
def parseLinuxLoop : List String → LinuxOpts → ParseOutcome LinuxOpts
  | [], o => .ok o
  | a :: rest, o =>
    if a = "-h" ∨ a = "--help" then .help
    else if a = "-u" ∨ a = "--user" then
      match rest with
      | v :: r => if isOptionLike v then .err else parseLinuxLoop r { o with user := some v }
      | [] => .err
    else if a = "-p" ∨ a = "--password" then
      match rest with
      | v :: r => if isOptionLike v then .err else parseLinuxLoop r { o with password := some v }
      | [] => .err
    else if a = "-r" ∨ a = "--remote" then
      match rest with
      | v :: r => if isOptionLike v then .err else parseLinuxLoop r { o with remote := v }
      | [] => .err
    else if a = "--teamcity" then
      match rest with
      | v :: r => if isOptionLike v then .err else parseLinuxLoop r { o with teamcity := v }
      | [] => .err
    else if a = "--personal" then
      if o.personalSeen = some false then .err
      else parseLinuxLoop rest { o with personal := true, personalSeen := some true }
    else if a = "--no-personal" then
      if o.personalSeen = some true then .err
      else parseLinuxLoop rest { o with personal := false, personalSeen := some false }
    else if a = "--maven-goals" then
      match rest with
      | v :: r => if isOptionLike v then .err else parseLinuxLoop r { o with mavenGoals := v }
      | [] => .err
    else if a = "--maven-args" then
      match rest with
      | v :: r => if isOptionLike v then .err else parseLinuxLoop r { o with mavenArgs := v }
      | [] => .err
    else if a = "-b" ∨ a = "--branch" then
      match rest with
      | v :: r => if isOptionLike v then .err else parseLinuxLoop r { o with branch := some v }
      | [] => .err
    else if a = "--jdk" then
      match rest with
      | v :: r =>
        if isOptionLike v then .err
        else if _linux_jdks.contains v then parseLinuxLoop r { o with jdk := v }
        else .err
      | [] => .err
    else .err

/-- Embeds `parser.parse_args(subargs)` of the `linux` handler
(src/tc.py lines 186-192): the option scan followed by argparse's
missing-required-arguments check for `user`, `password` and `branch`. -/
def parseLinux (subargs : List String) : ParseOutcome LinuxArgs :=
  match parseLinuxLoop subargs {} with
  | .err => .err
  | .help => .help
  | .ok o =>
    match o.user, o.password, o.branch with
    | some u, some p, some b =>
      .ok ⟨u, p, o.remote, o.teamcity, o.personal, o.mavenGoals, o.mavenArgs, b, o.jdk⟩
    | _, _, _ => .err

/-- Token-by-token model of the `har` sub-parser's option scan
(src/tc.py lines 200-207), with the same restrictions as
`parseLinuxLoop`. -/
def parseHarLoop : List String → HarOpts → ParseOutcome HarOpts
  | [], o => .ok o
  | a :: rest, o =>
    if a = "-h" ∨ a = "--help" then .help
    else if a = "-u" ∨ a = "--user" then
      match rest with
      | v :: r => if isOptionLike v then .err else parseHarLoop r { o with user := some v }
      | [] => .err
    else if a = "-p" ∨ a = "--password" then
      match rest with
      | v :: r => if isOptionLike v then .err else parseHarLoop r { o with password := some v }
      | [] => .err
    else if a = "-r" ∨ a = "--remote" then
      match rest with
      | v :: r => if isOptionLike v then .err else parseHarLoop r { o with remote := v }
      | [] => .err
    else if a = "--teamcity" then
      match rest with
      | v :: r => if isOptionLike v then .err else parseHarLoop r { o with teamcity := v }
      | [] => .err
    else if a = "--personal" then
      if o.personalSeen = some false then .err
      else parseHarLoop rest { o with personal := true, personalSeen := some true }
    else if a = "--no-personal" then
      if o.personalSeen = some true then .err
      else parseHarLoop rest { o with personal := false, personalSeen := some false }
    else if a = "-b" ∨ a = "--branch" then
      match rest with
      | v :: r => if isOptionLike v then .err else parseHarLoop r { o with branch := some v }
      | [] => .err
    else .err

/-- Embeds `parser.parse_args(subargs)` of the `har` handler. -/
def parseHar (subargs : List String) : ParseOutcome HarArgs :=
  match parseHarLoop subargs {} with
  | .err => .err
  | .help => .help
  | .ok o =>
    match o.user, o.password, o.branch with
    | some u, some p, some b => .ok ⟨u, p, o.remote, o.teamcity, o.personal, b⟩
    | _, _, _ => .err

/-- The single HTTP request issued by `start_linux` for parsed arguments
`a`: `send_request(user, password, teamcity, request_xml(...))`, where the
handler passes `tc_mvn_args(maven_args)` (src/tc.py lines 194-198). -/
def linuxReqOf (a : LinuxArgs) : HttpRequest :=
  send_request_req a.user a.password a.teamcity
    (start_linux_data a.personal a.branch a.remote a.mavenGoals (tc_mvn_args a.mavenArgs) a.jdk)

/-- The single HTTP request issued by `start_ha` for parsed arguments `a`
(src/tc.py lines 209-210). -/
def harReqOf (a : HarArgs) : HttpRequest :=
  send_request_req a.user a.password a.teamcity
    (start_ha_data a.personal a.branch a.remote)

/-- Result of an argparse usage error: usage text on stderr, exit 2. -/
def mkUsageError : ProcResult := { output := [.usageError], exitCode := 2, crashed := false }

/-- Result of `-h`/`--help`: help text, exit 0. -/
def mkHelp : ProcResult := { output := [.helpText], exitCode := 0, crashed := false }

/-- Embeds the `TC.linux` handler (src/tc.py lines 186-198) for a given
server behaviour: parse the sub-arguments, build the XML, issue the one
request and handle its response.  The second component is the list of
HTTP requests issued. -/
def TC_linux_run (server : HttpRequest → HttpResponse) (subargs : List String) :
    ProcResult × List HttpRequest :=
  match parseLinux subargs with
  | .err => ⟨mkUsageError, []⟩
  | .help => ⟨mkHelp, []⟩
  | .ok a => ⟨handle_response (server (linuxReqOf a)), [linuxReqOf a]⟩

/-- Embeds the `TC.har` handler (src/tc.py lines 200-210). -/
def TC_har_run (server : HttpRequest → HttpResponse) (subargs : List String) :
    ProcResult × List HttpRequest :=
  match parseHar subargs with
  | .err => ⟨mkUsageError, []⟩
  | .help => ⟨mkHelp, []⟩
  | .ok a => ⟨handle_response (server (harReqOf a)), [harReqOf a]⟩

/-- Attributes of a `TC` instance whose dispatch re-enters `TC.__init__`
with the remaining arguments: `__init__` itself (defined at src/tc.py
line 167) and `__class__`, which is the class `TC` and constructs a new
instance when called. -/
def tc_recursionAttrs : List String := ["__init__", "__class__"]

/-- Attributes inherited from `object` whose call with one list argument
returns `NotImplemented`; the dispatch then falls through and the process
ends normally with status 0 and no output. -/
def tc_notImplementedAttrs : List String :=
  ["__eq__", "__ne__", "__lt__", "__le__", "__gt__", "__ge__", "__subclasshook__"]

/-- Attributes inherited from `object` (CPython) whose call with one list
argument raises TypeError, ending the process with a traceback and exit
status 1. -/
def tc_typeErrorAttrs : List String :=
  ["__delattr__", "__dict__", "__dir__", "__doc__", "__format__", "__getattribute__",
   "__getstate__", "__hash__", "__init_subclass__", "__module__", "__new__", "__reduce__",
   "__reduce_ex__", "__repr__", "__setattr__", "__sizeof__", "__str__", "__weakref__"]

/-- Embeds `hasattr(self, args.command)` at src/tc.py line 178: true for
the two handler methods and for the attributes a `TC` instance inherits. -/
def TC_hasattr (cmd : String) : Bool :=
  cmd == "linux" || cmd == "har" || tc_recursionAttrs.contains cmd ||
    tc_notImplementedAttrs.contains cmd || tc_typeErrorAttrs.contains cmd

/-- Embeds `TC.__init__` (src/tc.py lines 167-184), the program entry
point for the argument list `cliargs`.  The top-level parser has one
required positional `command` and is applied to `cliargs[:1]`; a missing
command is an argparse error (exit 2), `-h`/`--help` prints help (exit 0),
an option-like first token is unrecognized by the parser (exit 2).
Otherwise `hasattr`/`getattr` dispatch runs: `linux` and `har` call their
handlers on the remaining arguments, `__init__` and `__class__` re-enter
the constructor, other inherited attributes either return
`NotImplemented` (run ends quietly with status 0) or raise TypeError
(traceback, status 1), and any other command prints
`Unrecognized command: <cmd>` plus the help text and exits 1 without any
HTTP call. -/
def tc_main (server : HttpRequest → HttpResponse) : List String → ProcResult × List HttpRequest
  | [] => ⟨mkUsageError, []⟩
  | cmd :: rest =>
    if cmd = "-h" ∨ cmd = "--help" then ⟨mkHelp, []⟩
    else if isOptionLike cmd then ⟨mkUsageError, []⟩
    else if cmd = "linux" then TC_linux_run server rest
    else if cmd = "har" then TC_har_run server rest
    else if tc_recursionAttrs.contains cmd then tc_main server rest
    else if tc_notImplementedAttrs.contains cmd then
      ⟨{ output := [], exitCode := 0, crashed := false }, []⟩
    else if tc_typeErrorAttrs.contains cmd then
      ⟨{ output := [], exitCode := 1, crashed := true }, []⟩
    else
      ⟨{ output := [.msg ("Unrecognized command: " ++ cmd), .helpText],
         exitCode := 1, crashed := false }, []⟩

/-- Modelled from the spec: the opening part of the rendered document, up
to and including the `<properties>` tag — the root `build` element with
its `personal` and `branchName` attributes, the `buildType` element and
the fixed comment. -/
def specBuildOpen (buildid : String) (personal : Bool) (branch : String) : String :=
  "\n<build personal=\"" ++ (if personal then "true" else "false")
    ++ "\" branchName=\"" ++ branch
    ++ "\">\n  <buildType id=\"" ++ buildid
    ++ "\"/>\n  <comment><text>Triggered from CLI</text></comment>\n  <properties>"

/-- Modelled from the spec: one `<property>` element of the `properties`
block. -/
def specPropLine (name value : String) : String :=
  "\n    <property name=\"" ++ name ++ "\" value=\"" ++ value ++ "\"/>"

/-- Modelled from the spec: one `<property>` element per mapping entry,
in insertion order. -/
def specPropLines : List (String × String) → String
  | [] => ""
  | kv :: rest => specPropLine kv.1 kv.2 ++ specPropLines rest

/-- Modelled from the spec: the closing part of the rendered document. -/
def specClose : String := "\n  </properties>\n</build>\n"

/-- States of the attribute-value scanner: in element text, inside a tag
but outside quotes, inside a double-quoted attribute value. -/
inductive ScanSt where
  | txt
  | tag
  | quo

/-- Scanner for the XML well-formedness constraint that a literal `<`
must not occur inside an attribute value: returns `false` exactly when a
`<` appears between an opening and a closing double quote inside a tag. -/
def ltScan : ScanSt → List Char → Bool
  | _, [] => true
  | .txt, c :: r => if c = '<' then ltScan .tag r else ltScan .txt r
  | .tag, c :: r =>
    if c = '>' then ltScan .txt r
    else if c = '\x22' then ltScan .quo r
    else ltScan .tag r
  | .quo, c :: r =>
    if c = '\x22' then ltScan .tag r
    else if c = '<' then false
    else ltScan .quo r

/-- A document satisfies the attribute-value constraint when the scanner
accepts it; every well-formed XML document does. -/
def noLtInAttrValues (s : String) : Bool := ltScan .txt s.data

/-- A response the CI server would give on success, used as a concrete
server behaviour in witnesses. -/
def resp200 : HttpResponse :=
  { status := 200
  , text := "\x7b\"webUrl\": \"https://x/y\"\x7d"
  , json := some (Json.obj [("webUrl", Json.str "https://x/y")]) }

/-- A 403 response with a non-JSON body. -/
def resp403 : HttpResponse := { status := 403, text := "denied", json := none }

/-- A server that always accepts the build request. -/
def server200 : HttpRequest → HttpResponse := fun _ => resp200

/-- A server that accepts requests authenticated as `alice` and rejects
all others with a 403. -/
def serverMix : HttpRequest → HttpResponse :=
  fun req => if req.authUser == "alice" then resp200 else resp403

/-- The parsed `linux` arguments for
`["-u", "alice", "-p", "pw", "-b", "main"]`. -/
def linuxArgs0 : LinuxArgs :=
  ⟨"alice", "pw", "origin", "https://build.neohq.net", false,
   "clean verify", "-DrunITs -DskipBrowser", "main", "openjdk-8"⟩

/-- The parsed `linux` arguments for
`["-u", "bob", "-p", "pw", "-b", "main"]`. -/
def linuxArgs1 : LinuxArgs :=
  ⟨"bob", "pw", "origin", "https://build.neohq.net", false,
   "clean verify", "-DrunITs -DskipBrowser", "main", "openjdk-8"⟩

/-- The parsed `har` arguments for
`["-u", "alice", "-p", "pw", "-b", "main"]`. -/
def harArgs0 : HarArgs :=
  ⟨"alice", "pw", "origin", "https://build.neohq.net", false, "main"⟩

/-- Folding the property formatter over a list prepends the accumulator to
the concatenation of the formatted lines. -/
theorem dict_as_properties_go (l : List (String × String)) (acc : String) :
    List.foldl (fun xml kv => xml ++ _requestpropertybase kv.1 kv.2) acc l
      = acc ++ specPropLines l := by
  induction l generalizing acc with
  | nil => simp [specPropLines]
  | cons kv rest ih =>
    simp only [List.foldl_cons, specPropLines, ih, String.append_assoc]
    rfl

/-- The property block built by `dict_as_properties` is one property line
per entry, in order. -/
theorem dict_as_properties_eq (l : List (String × String)) :
    dict_as_properties l = specPropLines l := by
  have h := dict_as_properties_go l ""
  simpa [dict_as_properties] using h

/-- The rendered request decomposes into the opening part, the two
always-present property lines, the supplied property block and the
closing part. -/
theorem request_xml_decomp (buildid : String) (personal : Bool) (branch remote ps : String) :
    request_xml buildid personal branch remote (some ps) =
      specBuildOpen buildid personal branch ++ specPropLine "remote" remote
        ++ specPropLine "branch" branch ++ ps ++ specClose := by
  unfold request_xml specBuildOpen specPropLine specClose
  rw [show ("\"/>\n  <comment><text>Triggered from CLI</text></comment>\n  <properties>\n    <property name=\"remote\" value=\"" : String)
        = "\"/>\n  <comment><text>Triggered from CLI</text></comment>\n  <properties>"
            ++ "\n    <property name=\"" ++ "remote" ++ "\" value=\"" from by decide]
  rw [show ("\"/>\n    <property name=\"branch\" value=\"" : String)
        = "\"/>" ++ "\n    <property name=\"" ++ "branch" ++ "\" value=\"" from by decide]
  simp only [Option.getD_some, String.append_assoc]

/-- The Linux build document: opening part, `remote` and `branch`
property lines, the three Linux property lines, closing part. -/
theorem start_linux_data_eq (personal : Bool) (branch remote goals margs jdk : String) :
    start_linux_data personal branch remote goals margs jdk =
      specBuildOpen _neo4jlinux_id personal branch ++ specPropLine "remote" remote
        ++ specPropLine "branch" branch
        ++ specPropLine "project-default-jdk" ("%" ++ jdk ++ "%")
        ++ specPropLine "maven-goals" goals
        ++ specPropLine "maven-args" margs ++ specClose := by
  unfold start_linux_data
  rw [request_xml_decomp, dict_as_properties_eq]
  simp only [specPropLines, String.append_assoc, String.append_empty]

/-- The HA build document: opening part, `remote` and `branch` property
lines, closing part, and nothing else. -/
theorem start_ha_data_eq (personal : Bool) (branch remote : String) :
    start_ha_data personal branch remote =
      specBuildOpen _har_id personal branch ++ specPropLine "remote" remote
        ++ specPropLine "branch" branch ++ specClose := by
  have h0 : start_ha_data personal branch remote
      = request_xml _har_id personal branch remote (some "") := rfl
  rw [h0, request_xml_decomp]
  simp only [String.append_assoc, String.empty_append]

/-- Splitting at the first colon of a list that is a colon-free part
followed by a colon returns exactly that part and the remainder. -/
theorem splitColon_append (a b : List Char) (h : ':' ∉ a) :
    splitColon (a ++ ':' :: b) = some (a, b) := by
  induction a with
  | nil => simp [splitColon]
  | cons c cs ih =>
    have hc : ¬ c = ':' := fun hh => h (hh ▸ List.mem_cons_self c cs)
    have hcs : ':' ∉ cs := fun hh => h (List.mem_cons_of_mem c hh)
    simp only [List.cons_append, splitColon, List.append_eq]
    rw [if_neg hc, ih hcs]

/-- Splitting a slash-free authority leaves the whole list as authority
and an empty path. -/
theorem splitNetloc_no_slash (l : List Char) (h : '/' ∉ l) : splitNetloc l = (l, []) := by
  induction l with
  | nil => rfl
  | cons c cs ih =>
    have hc : ¬ c = '/' := fun hh => h (hh ▸ List.mem_cons_self c cs)
    have hcs : '/' ∉ cs := fun hh => h (List.mem_cons_of_mem c hh)
    simp [splitNetloc, hc, ih hcs]

/-- Joining a relative reference against an absolute base with empty path
appends a slash and the reference. -/
theorem urljoin_no_path (scheme netloc : List Char) (rel : String)
    (h1 : ':' ∉ scheme) (h2 : '/' ∉ netloc) :
    urljoin ⟨scheme ++ ':' :: '/' :: '/' :: netloc⟩ rel
      = ⟨scheme ++ ':' :: '/' :: '/' :: (netloc ++ '/' :: rel.data)⟩ := by
  unfold urljoin
  rw [show (String.mk (scheme ++ ':' :: '/' :: '/' :: netloc)).data
        = scheme ++ ':' :: '/' :: '/' :: netloc from rfl]
  rw [splitColon_append scheme ('/' :: '/' :: netloc) h1]
  simp only []
  rw [splitNetloc_no_slash netloc h2]
  rfl

/-- The URL built by `send_request` for a base of the form
`scheme://host` (no path component) is the base followed by
`/httpAuth/app/rest/buildQueue`. -/
theorem urljoin_buildQueue (scheme netloc : String)
    (h1 : ':' ∉ scheme.data) (h2 : '/' ∉ netloc.data) :
    urljoin (scheme ++ "://" ++ netloc) "httpAuth/app/rest/buildQueue"
      = scheme ++ "://" ++ netloc ++ "/httpAuth/app/rest/buildQueue" := by
  obtain ⟨ls⟩ := scheme
  obtain ⟨ln⟩ := netloc
  have e1 : (String.mk ls ++ "://" ++ String.mk ln)
      = String.mk (ls ++ ':' :: '/' :: '/' :: ln) :=
    congrArg String.mk (List.append_assoc ls [':', '/', '/'] ln)
  rw [e1, urljoin_no_path ls ln _ h1 h2]
  show String.mk (ls ++ ':' :: '/' :: '/' :: (ln ++ '/' :: ("httpAuth/app/rest/buildQueue" : String).data))
      = String.mk ((ls ++ ':' :: '/' :: '/' :: ln) ++ ("/httpAuth/app/rest/buildQueue" : String).data)
  rw [List.append_assoc]
  rfl

/-- Status codes below 400 satisfy `resp.ok`. -/
theorem respOk_of_lt (s : Nat) (h : s < 400) : respOk s = true := by
  unfold respOk
  rw [if_neg (by omega)]

/-- Status codes in [400, 600) fail `resp.ok`. -/
theorem respOk_false_of (s : Nat) (h1 : 400 ≤ s) (h2 : s < 600) : respOk s = false := by
  unfold respOk
  rw [if_pos ⟨h1, h2⟩]

/-- On an ok response whose body parses to a JSON object, the success
branch prints the success message and the looked-up `webUrl` value, and
the process ends with status 0. -/
theorem handle_response_ok_obj (resp : HttpResponse) (fields : List (String × Json))
    (hok : respOk resp.status = true) (hj : resp.json = some (Json.obj fields)) :
    handle_response resp =
      { output := [.msg successMsg,
          match fields.find? (fun f => f.1 == "webUrl") with
          | some f => OutLine.jsonVal f.2
          | none => OutLine.pyNone]
      , exitCode := 0, crashed := false } := by
  unfold handle_response
  rw [hok, hj]
  rfl

/-- On an ok response whose body does not parse as JSON, `resp.json()`
raises after the success message was printed: traceback, exit status 1. -/
theorem handle_response_crash (resp : HttpResponse)
    (hok : respOk resp.status = true) (hj : resp.json = none) :
    handle_response resp = { output := [.msg successMsg], exitCode := 1, crashed := true } := by
  unfold handle_response
  rw [hok, hj]
  rfl

/-- On a failing response the failure branch prints the message, the
status code and the body (JSON if parseable, raw text otherwise), and
exits with status 1. -/
theorem handle_response_fail (resp : HttpResponse)
    (h1 : 400 ≤ resp.status) (h2 : resp.status < 600) :
    handle_response resp =
      { output := [.msg "Could not start build:", .msg (toString resp.status)] ++
          (match resp.json with
           | some j => [OutLine.jsonVal j]
           | none => [OutLine.msg resp.text])
      , exitCode := 1, crashed := false } := by
  unfold handle_response
  rw [respOk_false_of resp.status h1 h2]
  rfl

/-- Dispatching the `linux` command runs the `linux` handler on the rest
of the argument list. -/
theorem tc_main_linux (server : HttpRequest → HttpResponse) (rest : List String) :
    tc_main server ("linux" :: rest) = TC_linux_run server rest := rfl

/-- Dispatching the `har` command runs the `har` handler on the rest of
the argument list. -/
theorem tc_main_har (server : HttpRequest → HttpResponse) (rest : List String) :
    tc_main server ("har" :: rest) = TC_har_run server rest := rfl

/-- With no arguments at all, the top-level parser reports a missing
required `command` argument and exits with status 2. -/
theorem tc_main_nil (server : HttpRequest → HttpResponse) :
    tc_main server [] = ⟨mkUsageError, []⟩ := rfl

/-- A first token that is not an option, not the help flag, and not an
attribute of the `TC` instance is reported as an unrecognized command:
the program prints the message and the help text and exits with status 1
without issuing any HTTP request. -/
theorem tc_main_unrec (server : HttpRequest → HttpResponse) (cmd : String) (rest : List String)
    (h1 : isOptionLike cmd = false) (h2 : ¬ cmd = "-h") (h3 : ¬ cmd = "--help")
    (h4 : TC_hasattr cmd = false) :
    tc_main server (cmd :: rest) =
      ⟨{ output := [.msg ("Unrecognized command: " ++ cmd), .helpText],
         exitCode := 1, crashed := false }, []⟩ := by
  simp only [TC_hasattr, Bool.or_eq_false_iff] at h4
  obtain ⟨⟨⟨⟨e1, e2⟩, e3⟩, e4⟩, e5⟩ := h4
  have n1 : ¬ cmd = "linux" := by intro hh; subst hh; simp at e1
  have n2 : ¬ cmd = "har" := by intro hh; subst hh; simp at e2
  simp only [tc_main]
  rw [if_neg (fun hh => hh.elim h2 h3)]
  rw [if_neg (by simp [h1])]
  rw [if_neg n1, if_neg n2, e3, e4, e5]
  rfl

/-- The `linux` handler on successfully parsed arguments issues exactly
the one request `linuxReqOf a` and handles the server's response. -/
theorem TC_linux_run_ok (server : HttpRequest → HttpResponse) (subargs : List String)
    (a : LinuxArgs) (h : parseLinux subargs = ParseOutcome.ok a) :
    TC_linux_run server subargs = ⟨handle_response (server (linuxReqOf a)), [linuxReqOf a]⟩ := by
  unfold TC_linux_run
  rw [h]

/-- The `linux` handler on an argument-parse failure reports usage and
exits with status 2, issuing no request. -/
theorem TC_linux_run_err (server : HttpRequest → HttpResponse) (subargs : List String)
    (h : parseLinux subargs = ParseOutcome.err) :
    TC_linux_run server subargs = ⟨mkUsageError, []⟩ := by
  unfold TC_linux_run
  rw [h]

/-- The `har` handler on successfully parsed arguments issues exactly the
one request `harReqOf a` and handles the server's response. -/
theorem TC_har_run_ok (server : HttpRequest → HttpResponse) (subargs : List String)
    (a : HarArgs) (h : parseHar subargs = ParseOutcome.ok a) :
    TC_har_run server subargs = ⟨handle_response (server (harReqOf a)), [harReqOf a]⟩ := by
  unfold TC_har_run
  rw [h]

/-- C1: for every build request the rendered document is a root `build`
element whose properties block consists of the always-present `remote`
and `branch` property lines followed by exactly one property line per
supplied mapping entry, in insertion order; the Linux build contributes
exactly its three extra property lines and the HA build contributes
none. -/
theorem C1_properties_block :
    (∀ (props : List (String × String)) (buildid : String) (personal : Bool)
       (branch remote : String),
       request_xml buildid personal branch remote (some (dict_as_properties props)) =
         specBuildOpen buildid personal branch ++ specPropLine "remote" remote
           ++ specPropLine "branch" branch ++ specPropLines props ++ specClose)
    ∧ (∀ (personal : Bool) (branch remote goals margs jdk : String),
       start_linux_data personal branch remote goals margs jdk =
         specBuildOpen _neo4jlinux_id personal branch ++ specPropLine "remote" remote
           ++ specPropLine "branch" branch
           ++ specPropLine "project-default-jdk" ("%" ++ jdk ++ "%")
           ++ specPropLine "maven-goals" goals
           ++ specPropLine "maven-args" margs ++ specClose)
    ∧ (∀ (personal : Bool) (branch remote : String),
       start_ha_data personal branch remote =
         specBuildOpen _har_id personal branch ++ specPropLine "remote" remote
           ++ specPropLine "branch" branch ++ specClose) := by
  refine ⟨fun props buildid personal branch remote => ?_,
    fun p b r g m j => start_linux_data_eq p b r g m j,
    fun p b r => start_ha_data_eq p b r⟩
  rw [request_xml_decomp, dict_as_properties_eq]

/-- C2 counterexample: for the teamcity URL `https://build.neohq.net/tc`,
which carries a path component, the posted URL is not
`{teamcityUrl}/httpAuth/app/rest/buildQueue`: `urljoin` resolves the
fixed relative path against the base, replacing the last path segment. -/
theorem C2_counterexample :
    (send_request_req "u" "p" "https://build.neohq.net/tc" "<build/>").url
        = "https://build.neohq.net/httpAuth/app/rest/buildQueue"
    ∧ (send_request_req "u" "p" "https://build.neohq.net/tc" "<build/>").url
        ≠ "https://build.neohq.net/tc" ++ "/httpAuth/app/rest/buildQueue" := by
  exact ⟨by decide, by decide⟩

/-- C2 (amended): every invocation that reaches the transport step issues
exactly one HTTP POST with basic authentication using the supplied
username and password, the `Accept: application/json` and
`Content-Type: application/xml` headers, and the rendered XML as body;
the URL is `urljoin(teamcity, "httpAuth/app/rest/buildQueue")`, which
equals `{teamcityUrl}/httpAuth/app/rest/buildQueue` for teamcity URLs of
the form `scheme://host` with no path component, while a base with a
non-slash-terminated path has its last segment replaced. -/
theorem C2_amended_transport (user pass data scheme netloc : String)
    (server : HttpRequest → HttpResponse)
    (subargs subargs2 : List String) (a : LinuxArgs) (a2 : HarArgs)
    (hs : scheme = "http" ∨ scheme = "https")
    (hn0 : netloc ≠ "") (hn1 : '/' ∉ netloc.data) (hn2 : '?' ∉ netloc.data)
    (hn3 : '#' ∉ netloc.data)
    (hp1 : parseLinux subargs = ParseOutcome.ok a)
    (hp2 : parseHar subargs2 = ParseOutcome.ok a2) :
    (send_request_req user pass (scheme ++ "://" ++ netloc) data).method = "POST"
    ∧ (send_request_req user pass (scheme ++ "://" ++ netloc) data).url
        = scheme ++ "://" ++ netloc ++ "/httpAuth/app/rest/buildQueue"
    ∧ (send_request_req user pass (scheme ++ "://" ++ netloc) data).authUser = user
    ∧ (send_request_req user pass (scheme ++ "://" ++ netloc) data).authPass = pass
    ∧ (send_request_req user pass (scheme ++ "://" ++ netloc) data).headers
        = [("Accept", "application/json"), ("Content-Type", "application/xml")]
    ∧ (send_request_req user pass (scheme ++ "://" ++ netloc) data).body = data
    ∧ (tc_main server ("linux" :: subargs)).2 = [linuxReqOf a]
    ∧ (tc_main server ("har" :: subargs2)).2 = [harReqOf a2] := by
  have hs' : ':' ∉ scheme.data := by rcases hs with h | h <;> subst h <;> decide
  refine ⟨rfl, urljoin_buildQueue scheme netloc hs' hn1, rfl, rfl, rfl, rfl, ?_, ?_⟩
  · rw [tc_main_linux, TC_linux_run_ok server subargs a hp1]
  · rw [tc_main_har, TC_har_run_ok server subargs2 a2 hp2]

/-- C2 witness: the amended transport contract at the default host and
concrete credentials and argument lists. -/
theorem C2_amended_witness :
    (parseLinux ["-u", "alice", "-p", "pw", "-b", "main"] = ParseOutcome.ok linuxArgs0
      ∧ parseHar ["-u", "alice", "-p", "pw", "-b", "main"] = ParseOutcome.ok harArgs0
      ∧ '/' ∉ ("build.neohq.net" : String).data)
    ∧ (send_request_req "alice" "pw" ("https" ++ "://" ++ "build.neohq.net") "<build/>").url
        = "https" ++ "://" ++ "build.neohq.net" ++ "/httpAuth/app/rest/buildQueue"
    ∧ (tc_main server200 ["linux", "-u", "alice", "-p", "pw", "-b", "main"]).2
        = [linuxReqOf linuxArgs0]
    ∧ (tc_main server200 ["har", "-u", "alice", "-p", "pw", "-b", "main"]).2
        = [harReqOf harArgs0] := by
  have h := C2_amended_transport "alice" "pw" "<build/>" "https" "build.neohq.net" server200
    ["-u", "alice", "-p", "pw", "-b", "main"] ["-u", "alice", "-p", "pw", "-b", "main"]
    linuxArgs0 harArgs0 (Or.inr rfl) (by decide) (by decide) (by decide) (by decide) rfl rfl
  exact ⟨⟨rfl, rfl, by decide⟩, h.2.1, h.2.2.2.2.2.2.1, h.2.2.2.2.2.2.2⟩

/-- C3 counterexample: a 304 response (not 2xx) with a JSON-object body
satisfies `resp.ok` and takes the success path: the process prints the
success message and `None` and exits with status 0, printing no status
code, contrary to the claimed report-and-exit-1 behaviour for every
non-2xx response. -/
theorem C3_counterexample :
    handle_response { status := 304, text := "x", json := some (Json.obj []) }
      = { output := [.msg successMsg, .pyNone], exitCode := 0, crashed := false } := rfl

/-- C3 (amended): exactly the responses failing `resp.ok` (status in
[400, 600)) get the failure report: the program prints the failure
message, the numeric status code, then the parsed JSON body when the body
parses as JSON and the raw text otherwise, and exits with status 1.  An
ok response whose body is malformed JSON instead crashes with a traceback
after the success message (exit status 1, no status code printed). -/
theorem C3_amended_failure_report (resp resp2 : HttpResponse)
    (h1 : 400 ≤ resp.status) (h2 : resp.status < 600)
    (h3 : respOk resp2.status = true) (h4 : resp2.json = none) :
    handle_response resp =
      { output := [.msg "Could not start build:", .msg (toString resp.status)] ++
          (match resp.json with
           | some j => [OutLine.jsonVal j]
           | none => [OutLine.msg resp.text])
      , exitCode := 1, crashed := false }
    ∧ handle_response resp2 = { output := [.msg successMsg], exitCode := 1, crashed := true } :=
  ⟨handle_response_fail resp h1 h2, handle_response_crash resp2 h3 h4⟩

/-- C3 witness: the amended report at a concrete 403 response with a
non-JSON body, and the crash case at a 200 response with a malformed
body. -/
theorem C3_amended_witness :
    (400 ≤ 403 ∧ 403 < 600 ∧ respOk 200 = true)
    ∧ handle_response { status := 403, text := "denied", json := none }
        = { output := [.msg "Could not start build:", .msg "403", .msg "denied"],
            exitCode := 1, crashed := false }
    ∧ handle_response { status := 200, text := "not json", json := none }
        = { output := [.msg successMsg], exitCode := 1, crashed := true } := by
  refine ⟨⟨by decide, by decide, by decide⟩, ?_, ?_⟩
  · exact (C3_amended_failure_report ⟨403, "denied", none⟩ ⟨200, "not json", none⟩
      (by decide) (by decide) (by decide) rfl).1
  · exact (C3_amended_failure_report ⟨403, "denied", none⟩ ⟨200, "not json", none⟩
      (by decide) (by decide) (by decide) rfl).2

/-- C4: every 2xx response whose body is a JSON object with a string
field `webUrl` makes the program print the success message and that URL,
and the process exits with status 0. -/
theorem C4_success_prints_webUrl (resp : HttpResponse) (fields : List (String × Json))
    (url : String)
    (h1 : 200 ≤ resp.status) (h2 : resp.status < 300)
    (h3 : resp.json = some (Json.obj fields))
    (h4 : fields.find? (fun f => f.1 == "webUrl") = some ("webUrl", Json.str url)) :
    handle_response resp =
      { output := [.msg successMsg, .jsonVal (Json.str url)],
        exitCode := 0, crashed := false } := by
  rw [handle_response_ok_obj resp fields (respOk_of_lt resp.status (by omega)) h3, h4]

/-- C4 witness: a simulated 200 response whose body carries
`webUrl = https://x/y`. -/
theorem C4_success_witness :
    ((200 ≤ 200 ∧ 200 < 300)
      ∧ resp200.json = some (Json.obj [("webUrl", Json.str "https://x/y")]))
    ∧ handle_response resp200
        = { output := [.msg successMsg, .jsonVal (Json.str "https://x/y")],
            exitCode := 0, crashed := false } :=
  ⟨⟨⟨by decide, by decide⟩, rfl⟩,
    C4_success_prints_webUrl resp200 [("webUrl", Json.str "https://x/y")] "https://x/y"
      (by decide) (by decide) rfl rfl⟩

/-- C5 counterexample: with an empty argument list — a command-line
argument-parsing failure (the required `command` positional is missing) —
the process exits with status 2, not 1. -/
theorem C5_counterexample :
    tc_main server200 [] = ⟨{ output := [.usageError], exitCode := 2, crashed := false }, []⟩ :=
  rfl

/-- C5 (amended): the exit status is 0 when a build is started (the
response is 2xx with a JSON-object body), 1 for an unrecognized command
and for an HTTP failure (status in [400, 600)), and 2 — not 1 — for
argument-parsing failures, both a missing top-level command and a failing
sub-parser. -/
theorem C5_amended_exit_codes (server : HttpRequest → HttpResponse)
    (subargs subargs2 subargs3 : List String) (a a2 : LinuxArgs)
    (fields : List (String × Json)) (cmd : String) (rest : List String)
    (hp : parseLinux subargs = ParseOutcome.ok a)
    (hs1 : 200 ≤ (server (linuxReqOf a)).status)
    (hs2 : (server (linuxReqOf a)).status < 300)
    (hj : (server (linuxReqOf a)).json = some (Json.obj fields))
    (hc1 : isOptionLike cmd = false) (hc2 : ¬ cmd = "-h") (hc3 : ¬ cmd = "--help")
    (hc4 : TC_hasattr cmd = false)
    (hp2 : parseLinux subargs2 = ParseOutcome.ok a2)
    (hf1 : 400 ≤ (server (linuxReqOf a2)).status)
    (hf2 : (server (linuxReqOf a2)).status < 600)
    (hp3 : parseLinux subargs3 = ParseOutcome.err) :
    ((tc_main server ("linux" :: subargs)).1.exitCode = 0
      ∧ (tc_main server ("linux" :: subargs)).1.crashed = false)
    ∧ (tc_main server (cmd :: rest)).1.exitCode = 1
    ∧ (tc_main server ("linux" :: subargs2)).1.exitCode = 1
    ∧ (tc_main server []).1.exitCode = 2
    ∧ (tc_main server ("linux" :: subargs3)).1.exitCode = 2 := by
  refine ⟨?_, ?_, ?_, rfl, ?_⟩
  · rw [tc_main_linux, TC_linux_run_ok server subargs a hp,
      handle_response_ok_obj (server (linuxReqOf a)) fields (respOk_of_lt _ (by omega)) hj]
    exact ⟨rfl, rfl⟩
  · rw [tc_main_unrec server cmd rest hc1 hc2 hc3 hc4]
  · rw [tc_main_linux, TC_linux_run_ok server subargs2 a2 hp2,
      handle_response_fail (server (linuxReqOf a2)) hf1 hf2]
  · rw [tc_main_linux, TC_linux_run_err server subargs3 hp3]
    rfl

/-- C5 witness: the amended exit codes at concrete inputs — a successful
linux run as alice, the unknown command bogus, a 403-rejected run as bob,
the empty argument list, and a linux run missing the required values. -/
theorem C5_exit_codes_witness :
    (parseLinux ["-u", "alice", "-p", "pw", "-b", "main"] = ParseOutcome.ok linuxArgs0
      ∧ parseLinux ["-u", "bob", "-p", "pw", "-b", "main"] = ParseOutcome.ok linuxArgs1
      ∧ (serverMix (linuxReqOf linuxArgs0)).status = 200
      ∧ (serverMix (linuxReqOf linuxArgs1)).status = 403
      ∧ TC_hasattr "bogus" = false
      ∧ parseLinux ["--user"] = ParseOutcome.err)
    ∧ ((tc_main serverMix ["linux", "-u", "alice", "-p", "pw", "-b", "main"]).1.exitCode = 0
        ∧ (tc_main serverMix ["linux", "-u", "alice", "-p", "pw", "-b", "main"]).1.crashed = false)
    ∧ (tc_main serverMix ["bogus"]).1.exitCode = 1
    ∧ (tc_main serverMix ["linux", "-u", "bob", "-p", "pw", "-b", "main"]).1.exitCode = 1
    ∧ (tc_main serverMix []).1.exitCode = 2
    ∧ (tc_main serverMix ["linux", "--user"]).1.exitCode = 2 := by
  refine ⟨⟨rfl, rfl, rfl, rfl, rfl, rfl⟩, ?_⟩
  exact C5_amended_exit_codes serverMix
    ["-u", "alice", "-p", "pw", "-b", "main"] ["-u", "bob", "-p", "pw", "-b", "main"]
    ["--user"] linuxArgs0 linuxArgs1 [("webUrl", Json.str "https://x/y")] "bogus" []
    rfl (by decide) (by decide) rfl rfl (by decide) (by decide) rfl
    rfl (by decide) (by decide) rfl

/-- C6 counterexample: the command string `__init__` — a top-level
command other than `linux` and `har` — is an attribute of the `TC`
instance, so instead of the unrecognized-command message and exit status
1 it is dispatched, re-entering the constructor, and the run ends as an
argparse usage error with exit status 2. -/
theorem C6_counterexample :
    tc_main server200 ["__init__"]
      = ⟨{ output := [.usageError], exitCode := 2, crashed := false }, []⟩ := rfl

/-- C6 (amended): every first argument that is not an option token, not a
help flag, and not an attribute of the `TC` instance (`linux`, `har`,
`__init__` and the attributes inherited from `object`) gets the
unrecognized-command message plus the help text and exit status 1, with
no HTTP request issued; the commands `linux` and `har` dispatch to the
two build handlers. -/
theorem C6_amended_dispatch (server : HttpRequest → HttpResponse) (cmd : String)
    (rest : List String)
    (h1 : isOptionLike cmd = false) (h2 : ¬ cmd = "-h") (h3 : ¬ cmd = "--help")
    (h4 : TC_hasattr cmd = false) :
    tc_main server (cmd :: rest) =
      ⟨{ output := [.msg ("Unrecognized command: " ++ cmd), .helpText],
         exitCode := 1, crashed := false }, []⟩
    ∧ (∀ rest2, tc_main server ("linux" :: rest2) = TC_linux_run server rest2)
    ∧ (∀ rest2, tc_main server ("har" :: rest2) = TC_har_run server rest2) :=
  ⟨tc_main_unrec server cmd rest h1 h2 h3 h4, fun _ => rfl, fun _ => rfl⟩

/-- C6 witness: invoking with command `bogus` prints the
unrecognized-command message and exits 1 without any HTTP call. -/
theorem C6_amended_witness :
    (isOptionLike "bogus" = false ∧ TC_hasattr "bogus" = false)
    ∧ tc_main server200 ["bogus"] =
        ⟨{ output := [.msg "Unrecognized command: bogus", .helpText],
           exitCode := 1, crashed := false }, []⟩ :=
  ⟨⟨rfl, rfl⟩,
    (C6_amended_dispatch server200 "bogus" [] rfl (by decide) (by decide) rfl).1⟩

/-- C7: for every user-supplied maven-args string A, `tc_mvn_args`
prepends the fixed flag prefix, and the `maven-args` property line of the
rendered Linux build document carries exactly that prefixed value. -/
theorem C7_maven_args_prefix :
    (∀ A : String, tc_mvn_args A =
       "-DfailIfNoTests=false -Dmaven.test.failure.ignore=true --show-version " ++ A)
    ∧ ∀ (personal : Bool) (branch remote goals jdk A : String),
        ∃ l r : String, start_linux_data personal branch remote goals (tc_mvn_args A) jdk =
          l ++ specPropLine "maven-args"
            ("-DfailIfNoTests=false -Dmaven.test.failure.ignore=true --show-version " ++ A)
            ++ r := by
  refine ⟨fun A => rfl, fun personal branch remote goals jdk A => ?_⟩
  refine ⟨specBuildOpen _neo4jlinux_id personal branch ++ specPropLine "remote" remote
      ++ specPropLine "branch" branch ++ specPropLine "project-default-jdk" ("%" ++ jdk ++ "%")
      ++ specPropLine "maven-goals" goals, specClose, ?_⟩
  rw [start_linux_data_eq]
  rfl

/-- C8: the six supported jdk choices are exactly `_linux_jdks` with
`openjdk-8` as the parser default, and for each choice the rendered Linux
build document carries a `project-default-jdk` property line whose value
is the jdk name wrapped in percent signs. -/
theorem C8_jdk_property (jdk : String) (h : jdk ∈ _linux_jdks) :
    _linux_jdks = ["openjdk-8", "openjdk-7", "oracle-jdk-8", "oracle-jdk-7",
      "ibmjdk-8", "ibmjdk-7"]
    ∧ ({} : LinuxOpts).jdk = "openjdk-8"
    ∧ ∀ (personal : Bool) (branch remote goals margs : String),
        ∃ l r : String, start_linux_data personal branch remote goals margs jdk =
          l ++ specPropLine "project-default-jdk" ("%" ++ jdk ++ "%") ++ r := by
  refine ⟨rfl, rfl, fun personal branch remote goals margs => ?_⟩
  refine ⟨specBuildOpen _neo4jlinux_id personal branch ++ specPropLine "remote" remote
      ++ specPropLine "branch" branch,
    specPropLine "maven-goals" goals ++ specPropLine "maven-args" margs ++ specClose, ?_⟩
  rw [start_linux_data_eq]
  simp only [String.append_assoc]

/-- C8 witness: the property line for the default choice `openjdk-8` in a
concrete rendered document. -/
theorem C8_jdk_witness :
    "openjdk-8" ∈ _linux_jdks
    ∧ ∃ l r : String, start_linux_data false "main" "origin" "clean verify" "-X" "openjdk-8"
        = l ++ specPropLine "project-default-jdk" "%openjdk-8%" ++ r :=
  ⟨by decide,
    (C8_jdk_property "openjdk-8" (by decide)).2.2 false "main" "origin" "clean verify" "-X"⟩

/-- C9: a branch value containing `<` is interpolated into the rendered
document verbatim, and the resulting document violates the XML
well-formedness constraint that no literal `<` occurs inside an attribute
value, while the same request with a plain branch passes the check. -/
theorem C9_unescaped_interpolation :
    (∃ l r : String, start_ha_data false "a<b" "origin" = l ++ "a<b" ++ r)
    ∧ noLtInAttrValues (start_ha_data false "a<b" "origin") = false
    ∧ noLtInAttrValues (start_ha_data false "main" "origin") = true := by
  refine ⟨⟨"\n<build personal=\"false\" branchName=\"",
    "\">\n  <buildType id=\"JonasHaRequests_HarBranchArtifacts\"/>\n  <comment><text>Triggered from CLI</text></comment>\n  <properties>\n    <property name=\"remote\" value=\"origin\"/>\n    <property name=\"branch\" value=\"a<b\"/>\n  </properties>\n</build>\n",
    by decide⟩, by decide, by decide⟩

/-- C10: every 2xx response whose body is a JSON object without a
`webUrl` field still succeeds: the program prints the success message
followed by `None` and exits with status 0. -/
theorem C10_missing_webUrl (resp : HttpResponse) (fields : List (String × Json))
    (h1 : 200 ≤ resp.status) (h2 : resp.status < 300)
    (h3 : resp.json = some (Json.obj fields))
    (h4 : fields.find? (fun f => f.1 == "webUrl") = none) :
    handle_response resp =
      { output := [.msg successMsg, .pyNone], exitCode := 0, crashed := false } := by
  rw [handle_response_ok_obj resp fields (respOk_of_lt resp.status (by omega)) h3, h4]

/-- C10 witness: a 204 response with an empty JSON object body. -/
theorem C10_missing_webUrl_witness :
    (200 ≤ 204 ∧ 204 < 300)
    ∧ handle_response { status := 204, text := "\x7b\x7d", json := some (Json.obj []) }
        = { output := [.msg successMsg, .pyNone], exitCode := 0, crashed := false } :=
  ⟨⟨by decide, by decide⟩,
    C10_missing_webUrl ⟨204, "\x7b\x7d", some (Json.obj [])⟩ [] (by decide) (by decide) rfl rfl⟩
